import Mathlib

/-!
# Verification of the `AI_lab2` ORB image-matcher application

A shallow embedding of `src/AI_lab2.py` (class `ImageMatcherApp`).

Modelling conventions:

* The mutable attributes of the `ImageMatcherApp` object become the fields of
  `AppState`; the content of the Qt video label is tracked in the field
  `displayed`, and each handler additionally returns the list of strings it
  prints to the console.
* Calls into the OpenCV library are embedded as follows: operations whose
  result the claims depend on only structurally (`cvtColor`, `drawKeypoints`,
  `drawMatches`) become free constructors of the symbolic image type `CImg`;
  operations whose result is environment-dependent (`cv2.imread`,
  `VideoCapture.read`, `ORB.detectAndCompute`, `BFMatcher.match`) are passed
  in as parameters (`imread`, the fields of `TickEnv`); `cv2.resize` to an
  explicit `(w, h)` size produces an image of exactly those dimensions.
* Python's `sorted(matches, key=lambda x: x.distance)` is embedded as
  `List.insertionSort distLE` (a stable sort into ascending distance order).
* Python's IEEE-754 double arithmetic in the template-rescaling code
  (`scaling_factor = 450 / max(height, width)`, `int(width * scaling_factor)`)
  is embedded exactly: `roundDouble` rounds a positive rational to the nearest
  representable binary64 value (53-bit significand; round half up, which
  agrees with IEEE round-half-even whenever the scaled value is not an exact
  tie — at every concrete input evaluated below no tie arises), and `pyInt`
  is Python's `int()` truncation, i.e. the floor on non-negative values.
  Exponents stay far inside the normal binary64 range for all image sizes
  considered, so overflow and subnormals need no modelling.
-/

namespace AILab2

/-- A decoded grayscale raster (`cv2.imread(..., IMREAD_GRAYSCALE)` result):
`shape[:2] = (height, width)` plus an abstract content token `tag`
distinguishing distinct decodes. -/
structure GrayImg where
  height : Nat
  width : Nat
  tag : Nat
deriving DecidableEq, Repr

/-- `cv2.resize(img, (w, h))`: the result has exactly the requested
dimensions; the content token is carried through. -/
def cv2_resize (img : GrayImg) (w h : Nat) : GrayImg :=
  ⟨h, w, img.tag⟩

/-- A captured BGR camera frame, identified by an abstract token. -/
abbrev Frame := Nat

/-- A detected ORB keypoint, identified by an abstract token. -/
abbrev Keypoint := Nat

/-- An ORB descriptor array (`detectAndCompute` second result when not
`None`), as a list of abstract descriptor tokens. -/
abbrev DescArr := List Nat

/-- One element of the `BFMatcher.match` result: query (template) index,
train (frame) index, and the Hamming distance (an integer for binary
descriptors). -/
structure DMatch where
  queryIdx : Nat
  trainIdx : Nat
  distance : Nat
deriving DecidableEq, Repr

/-- The comparison used by `sorted(matches, key=lambda x: x.distance)`. -/
def distLE (a b : DMatch) : Prop :=
  a.distance ≤ b.distance

instance : DecidableRel distLE :=
  fun a b => Nat.decLe a.distance b.distance

instance : IsTotal DMatch distLE :=
  ⟨fun a b => Nat.le_total a.distance b.distance⟩

instance : IsTrans DMatch distLE :=
  ⟨fun _ _ _ hab hbc => Nat.le_trans hab hbc⟩

/-- Symbolic colour images: a raw captured frame, or the result of one of the
OpenCV rendering/conversion calls the application makes. -/
inductive CImg
  | frame (f : Frame)
  | bgr2rgb (i : CImg)
  | drawKeypoints (i : CImg) (kps : List Keypoint)
  | drawMatches (tmpl : GrayImg) (kp1 : List Keypoint) (i : CImg)
      (kp2 : List Keypoint) (ms : List DMatch)
deriving DecidableEq, Repr

/-- Content of the Qt video label. -/
inductive Display
  | label (s : String)
  | empty
  | pix (i : CImg)
deriving DecidableEq, Repr

/-- A `cv2.VideoCapture` handle; `opened` is what `isOpened()` returns.
`release()` turns `opened` off. -/
structure Capture where
  opened : Bool
deriving DecidableEq, Repr

/-- The mutable state of an `ImageMatcherApp` instance. -/
structure AppState where
  camera_on : Bool
  template_image : Option GrayImg
  display_markers : Bool
  connect_markers : Bool
  cap : Option Capture
  timer_on : Bool
  displayed : Display
deriving DecidableEq, Repr

/-- The state right after `__init__`/`initUI`. -/
def initState : AppState :=
  { camera_on := false
    template_image := none
    display_markers := true
    connect_markers := false
    cap := none
    timer_on := false
    displayed := Display.label ("Camera feed") }

/-! ## Exact binary64 model for the template-rescaling arithmetic

Non-negative rationals are represented as raw numerator/denominator pairs
(`Frac`), without normalization: every operation below is structurally
recursive, so closed instances evaluate by kernel reduction (`decide`). -/

/-- A non-negative rational as a raw fraction.  All constructions below
keep `den` nonzero. -/
structure Frac where
  num : Nat
  den : Nat
deriving DecidableEq, Repr

/-- Fraction multiplication. -/
def Frac.mul (a b : Frac) : Frac :=
  ⟨a.num * b.num, a.den * b.den⟩

/-- Fraction addition. -/
def Frac.add (a b : Frac) : Frac :=
  ⟨a.num * b.den + b.num * a.den, a.den * b.den⟩

/-- `a < b` on fractions, by cross-multiplication. -/
def Frac.lt (a b : Frac) : Prop :=
  a.num * b.den < b.num * a.den

instance : DecidableRel Frac.lt :=
  fun a b => Nat.decLt (a.num * b.den) (b.num * a.den)

/-- `a ≤ b` on fractions, by cross-multiplication. -/
def Frac.le (a b : Frac) : Prop :=
  a.num * b.den ≤ b.num * a.den

instance : DecidableRel Frac.le :=
  fun a b => Nat.decLe (a.num * b.den) (b.num * a.den)

/-- Floor of a fraction. -/
def Frac.floor (a : Frac) : Nat :=
  a.num / a.den

/-- `⌊log₂ q⌋` for `1 ≤ q`, by fuelled halving. -/
def expOfGe1 : Nat → Frac → Int
  | 0, _ => 0
  | fuel + 1, q => if Frac.lt q ⟨2, 1⟩ then 0 else expOfGe1 fuel ⟨q.num, q.den * 2⟩ + 1

/-- `⌊log₂ q⌋` for `0 < q < 1`, by fuelled doubling. -/
def expOfLt1 : Nat → Frac → Int
  | 0, _ => 0
  | fuel + 1, q => if Frac.le ⟨1, 2⟩ q then -1 else expOfLt1 fuel ⟨q.num * 2, q.den⟩ - 1

/-- `⌊log₂ q⌋` for a positive fraction `q` (fuel 1100 covers the whole
binary64 range). -/
def floorLog2 (q : Frac) : Int :=
  if Frac.lt q ⟨1, 1⟩ then expOfLt1 1100 q else expOfGe1 1100 q

/-- `2 ^ e` as a fraction, for an integer exponent. -/
def pow2Q : Int → Frac
  | Int.ofNat n => ⟨2 ^ n, 1⟩
  | Int.negSucc n => ⟨1, 2 ^ (n + 1)⟩

/-- Round a non-negative rational to the nearest binary64 value (53-bit
significand, round half up). -/
def roundDouble (q : Frac) : Frac :=
  if q.num = 0 then ⟨0, 1⟩
  else
    let e : Int := floorLog2 q - 52
    Frac.mul ⟨Frac.floor (Frac.add (Frac.mul q (pow2Q (-e))) ⟨1, 2⟩), 1⟩ (pow2Q e)

/-- Python float division `a / b` of two non-negative machine integers
(each below 2^53, hence exactly representable). -/
def float_div (a b : Nat) : Frac :=
  roundDouble ⟨a, b⟩

/-- Python float multiplication `n * q` of a machine integer (below 2^53)
by a double. -/
def float_mul (n : Nat) (q : Frac) : Frac :=
  roundDouble (Frac.mul ⟨n, 1⟩ q)

/-- Python `int()` on a non-negative float: truncation toward zero,
i.e. the floor. -/
def pyInt (q : Frac) : Nat :=
  Frac.floor q

/-! ## The handlers of `ImageMatcherApp` -/

/-- `ImageMatcherApp.load_template_image`.  `file_path` is what the file
dialog returned (`""` on cancel — the only falsy string); `imread` is what
`cv2.imread(file_path, IMREAD_GRAYSCALE)` returns for that path (`none` on
decode failure).  Returns the new state and the console output.  Note the
source assigns `self.template_image = cv2.imread(...)` before checking the
result, so a failed decode overwrites any previous template with `None`. -/
def load_template_image (s : AppState) (file_path : String)
    (imread : Option GrayImg) : AppState × List String :=
  if file_path = "" then (s, [])
  else
    match imread with
    | none =>
        ({ s with template_image := none }, ["Failed to load template image."])
    | some img =>
        let height := img.height
        let width := img.width
        if 450 < max height width then
          let scaling_factor := float_div 450 (max height width)
          let new_w := pyInt (float_mul width scaling_factor)
          let new_h := pyInt (float_mul height scaling_factor)
          ({ s with template_image := some (cv2_resize img new_w new_h) },
           ["Template image loaded successfully."])
        else
          ({ s with template_image := some img },
           ["Template image loaded successfully."])

/-- `ImageMatcherApp.start_camera`.  `device` is the handle that
`cv2.VideoCapture(0)` produced (assigned to `self.cap` unconditionally). -/
def start_camera (s : AppState) (device : Capture) : AppState × List String :=
  let s1 := { s with cap := some device }
  if device.opened then
    ({ s1 with camera_on := true, timer_on := true }, [])
  else
    (s1, ["Error: Cannot access the camera."])

/-- The effect of `if self.cap: self.cap.release()` on the stored handle
(a `VideoCapture` object is always truthy, so release runs iff the handle
is present; the attribute itself is never cleared). -/
def releaseCap : Option Capture → Option Capture
  | none => none
  | some c => some { c with opened := false }

/-- `ImageMatcherApp.stop_camera`: release the handle if present, mark the
camera off, stop the timer and clear the video label.  Prints nothing. -/
def stop_camera (s : AppState) : AppState × List String :=
  ({ s with
      cap := releaseCap s.cap
      camera_on := false
      timer_on := false
      displayed := Display.empty }, [])

/-- `ImageMatcherApp.toggle_markers` (with the checkbox state passed in). -/
def toggle_markers (s : AppState) (checked : Bool) : AppState :=
  { s with display_markers := checked }

/-- `ImageMatcherApp.toggle_connect_markers`. -/
def toggle_connect_markers (s : AppState) (checked : Bool) : AppState :=
  { s with connect_markers := checked }

/-- The environment of one timer tick: what `self.cap.read()` returns
(`none` when `ret` is false), what `ORB.detectAndCompute` returns on the
stored template (`kp1`, `des1`) and on the grayscale-converted frame
(`kp2`, `des2`; `des` is `None` exactly when no descriptors were produced),
and what `bf.match(des1, des2)` — Hamming distance with cross-check —
returns when both descriptor arrays are present. -/
structure TickEnv where
  readResult : Option Frame
  kp1 : List Keypoint
  des1 : Option DescArr
  kp2 : List Keypoint
  des2 : Option DescArr
  bfMatches : List DMatch
deriving DecidableEq, Repr

/-- `ImageMatcherApp.update_frame`: one timer tick.  Mirrors the source's
control flow: bail out unless the handle is present and open; bail out with
a log line if the read fails; if a template is loaded and both descriptor
arrays are present and `connect_markers` is set, display the sorted
top-20 `drawMatches` composite (the source's early `return`); otherwise if
`display_markers` is set display the frame with keypoints; otherwise
display the colour-converted raw frame. -/
def update_frame (s : AppState) (env : TickEnv) : AppState × List String :=
  match s.cap with
  | none => (s, [])
  | some c =>
    if c.opened then
      match env.readResult with
      | none => (s, ["Failed to read frame from camera."])
      | some frame =>
        match s.template_image with
        | some tmpl =>
          if env.des1.isSome && env.des2.isSome && s.connect_markers then
            let matchList := List.insertionSort distLE env.bfMatches
            let template_resized := cv2_resize tmpl tmpl.width tmpl.height
            let result_image := CImg.drawMatches template_resized env.kp1
              (CImg.frame frame) env.kp2 (matchList.take 20)
            ({ s with displayed := Display.pix (CImg.bgr2rgb result_image) }, [])
          else if s.display_markers then
            ({ s with displayed := Display.pix (CImg.bgr2rgb
                (CImg.drawKeypoints (CImg.frame frame) env.kp2)) }, [])
          else
            ({ s with displayed :=
                Display.pix (CImg.bgr2rgb (CImg.frame frame)) }, [])
        | none =>
            ({ s with displayed :=
                Display.pix (CImg.bgr2rgb (CImg.frame frame)) }, [])
    else (s, [])

/-- `ImageMatcherApp.closeEvent`: delegates to `stop_camera`. -/
def closeEvent (s : AppState) : AppState × List String :=
  stop_camera s

/-! ## Render-path classifiers -/

/-- The display shows the side-by-side `drawMatches` composite. -/
def isMatchComposite : Display → Bool
  | Display.pix (CImg.bgr2rgb (CImg.drawMatches _ _ _ _ _)) => true
  | _ => false

/-- The display shows the keypoints-only overlay on the frame. -/
def isKeypointsOnly : Display → Bool
  | Display.pix (CImg.bgr2rgb (CImg.drawKeypoints _ _)) => true
  | _ => false

/-- The display shows the raw colour-converted frame, no overlay. -/
def isRawFrame : Display → Bool
  | Display.pix (CImg.bgr2rgb (CImg.frame _)) => true
  | _ => false

/-! ## Theorems -/

/-- C1 (counterexample): with a template already loaded, a decode failure
(`cv2.imread` returning `None`) does not retain the previous template: the
stored template becomes `None`, because the source assigns the `imread`
result to `self.template_image` before checking it. -/
theorem load_template_decode_failure_overwrites :
    ({ initState with template_image := some ⟨10, 10, 3⟩ } : AppState).template_image
        = some (⟨10, 10, 3⟩ : GrayImg) ∧
    (load_template_image { initState with template_image := some ⟨10, 10, 3⟩ }
        ("bad.png") none).1.template_image = none ∧
    (load_template_image { initState with template_image := some ⟨10, 10, 3⟩ }
        ("bad.png") none).2 = ["Failed to load template image."] := by
  decide

/-- C1 (amended): if the dialog returns a non-empty path and the decode
fails, the stored template is overwritten with the failed (absent) decode
result — any previously loaded template is cleared — the rest of the state
is untouched, and the failure is reported only on the console. -/
theorem load_template_decode_failure_clears (s : AppState) (file_path : String)
    (hp : file_path ≠ "") :
    load_template_image s file_path none =
      ({ s with template_image := none }, ["Failed to load template image."]) := by
  simp [load_template_image, hp]

/-- C1 (witness). -/
theorem load_template_decode_failure_clears_witness :
    load_template_image { initState with template_image := some ⟨10, 10, 3⟩ }
        ("bad.png") none =
      ({ initState with template_image := none },
       ["Failed to load template image."]) :=
  load_template_decode_failure_clears
    { initState with template_image := some ⟨10, 10, 3⟩ } ("bad.png") (by decide)

/-- C2 (counterexample): with a template loaded and connect-markers enabled
but the template producing no descriptors (`des1 = None`), the tick takes
the keypoints-only branch (display-markers being on), not the match
composite. -/
theorem update_frame_connect_no_descriptors_keypoints_branch :
    ({ initState with
        template_image := some ⟨100, 100, 1⟩, connect_markers := true,
        camera_on := true, cap := some ⟨true⟩, timer_on := true } : AppState).connect_markers = true ∧
    ({ initState with
        template_image := some ⟨100, 100, 1⟩, connect_markers := true,
        camera_on := true, cap := some ⟨true⟩, timer_on := true } : AppState).template_image.isSome = true ∧
    isKeypointsOnly (update_frame
      { initState with
        template_image := some ⟨100, 100, 1⟩, connect_markers := true,
        camera_on := true, cap := some ⟨true⟩, timer_on := true }
      { readResult := some 0, kp1 := [], des1 := none, kp2 := [7],
        des2 := some [5], bfMatches := [] }).1.displayed = true ∧
    isMatchComposite (update_frame
      { initState with
        template_image := some ⟨100, 100, 1⟩, connect_markers := true,
        camera_on := true, cap := some ⟨true⟩, timer_on := true }
      { readResult := some 0, kp1 := [], des1 := none, kp2 := [7],
        des2 := some [5], bfMatches := [] }).1.displayed = false := by
  decide

/-- C2 (amended): on a tick with the capture open, a successful read, a
template loaded, connect-markers enabled **and both descriptor arrays
present**, the render path is the side-by-side match composite and neither
the keypoints-only nor the raw-frame branch is taken, regardless of the
display-markers flag. -/
theorem update_frame_connect_with_descriptors_match_branch (s : AppState)
    (env : TickEnv) (c : Capture) (tmpl : GrayImg) (f : Frame) (d1 d2 : DescArr)
    (hc : s.cap = some c) (hop : c.opened = true) (hr : env.readResult = some f)
    (ht : s.template_image = some tmpl) (hcm : s.connect_markers = true)
    (h1 : env.des1 = some d1) (h2 : env.des2 = some d2) :
    isMatchComposite (update_frame s env).1.displayed = true ∧
    isKeypointsOnly (update_frame s env).1.displayed = false ∧
    isRawFrame (update_frame s env).1.displayed = false := by
  simp [update_frame, hc, hop, hr, ht, hcm, h1, h2,
    isMatchComposite, isKeypointsOnly, isRawFrame]

/-- C2 (witness). -/
theorem update_frame_connect_with_descriptors_match_branch_witness :
    isMatchComposite (update_frame
      { initState with
        template_image := some ⟨100, 100, 1⟩, connect_markers := true,
        camera_on := true, cap := some ⟨true⟩, timer_on := true }
      { readResult := some 0, kp1 := [4], des1 := some [8], kp2 := [7],
        des2 := some [5], bfMatches := [⟨0, 0, 3⟩] }).1.displayed = true ∧
    isKeypointsOnly (update_frame
      { initState with
        template_image := some ⟨100, 100, 1⟩, connect_markers := true,
        camera_on := true, cap := some ⟨true⟩, timer_on := true }
      { readResult := some 0, kp1 := [4], des1 := some [8], kp2 := [7],
        des2 := some [5], bfMatches := [⟨0, 0, 3⟩] }).1.displayed = false ∧
    isRawFrame (update_frame
      { initState with
        template_image := some ⟨100, 100, 1⟩, connect_markers := true,
        camera_on := true, cap := some ⟨true⟩, timer_on := true }
      { readResult := some 0, kp1 := [4], des1 := some [8], kp2 := [7],
        des2 := some [5], bfMatches := [⟨0, 0, 3⟩] }).1.displayed = false :=
  update_frame_connect_with_descriptors_match_branch _ _ ⟨true⟩ ⟨100, 100, 1⟩ 0
    [8] [5] rfl rfl rfl rfl rfl rfl rfl

/-- C3 (code evaluation at the failing input): a successfully decoded
591-pixel-wide grayscale template (400×591) is larger than 450, yet the
stored template is 304×449 — its longer side is 449, not 450 — because
`450 / 591` rounds to a binary64 value whose product with 591 is just below
450 and `int(...)` truncates.  The claim (and the clear intent of
`scaling_factor = 450 / max(height, width)`) says the longer side becomes
exactly 450. -/
theorem load_template_resize_591_stores_449 :
    (load_template_image initState ("t.png")
        (some ⟨400, 591, 0⟩)).1.template_image = some (⟨304, 449, 0⟩ : GrayImg) ∧
    450 < max 400 591 ∧ max 304 449 ≠ 450 := by
  decide

/-- C4: a successfully decoded template whose longer side is at most 450 px
is stored exactly as decoded, with no resizing, and nothing else changes. -/
theorem load_template_small_no_resize (s : AppState) (file_path : String)
    (img : GrayImg) (hp : file_path ≠ "")
    (hsize : max img.height img.width ≤ 450) :
    load_template_image s file_path (some img) =
      ({ s with template_image := some img },
       ["Template image loaded successfully."]) := by
  simp [load_template_image, hp, Nat.not_lt.mpr hsize]

/-- C4 (witness). -/
theorem load_template_small_no_resize_witness :
    load_template_image initState ("t.png") (some ⟨300, 450, 1⟩) =
      ({ initState with template_image := some ⟨300, 450, 1⟩ },
       ["Template image loaded successfully."]) :=
  load_template_small_no_resize initState ("t.png") ⟨300, 450, 1⟩
    (by decide) (by decide)

/-- C5 (counterexample): calling `stop_camera` in the initial state — no
capture handle, camera off — does change the application state: the video
label (showing the placeholder text) is cleared. -/
theorem stop_camera_clears_initial_display :
    initState.cap = none ∧ initState.camera_on = false ∧
    (stop_camera initState).1 ≠ initState ∧
    (stop_camera initState).1.displayed = Display.empty := by
  decide

/-- C5 (amended): calling `stop_camera` when no capture is active (handle
absent, camera off, timer stopped) produces no error and leaves the
template, both mode flags, the capture handle, the camera flag and the
timer unchanged; the displayed image is cleared.  In general `stop_camera`
is idempotent. -/
theorem stop_camera_inactive_noop_and_idempotent (s : AppState)
    (hcap : s.cap = none) (hcam : s.camera_on = false)
    (htm : s.timer_on = false) :
    stop_camera s = ({ s with displayed := Display.empty }, []) ∧
    ∀ t : AppState, stop_camera (stop_camera t).1 = stop_camera t := by
  constructor
  · obtain ⟨cam, tmpl, dm, cm, cp, tmr, disp⟩ := s
    simp only at hcap hcam htm
    subst hcap hcam htm
    rfl
  · intro t
    obtain ⟨cam, tmpl, dm, cm, cp, tmr, disp⟩ := t
    cases cp <;> rfl

/-- C5 (witness). -/
theorem stop_camera_inactive_noop_witness :
    stop_camera initState = ({ initState with displayed := Display.empty }, []) :=
  (stop_camera_inactive_noop_and_idempotent initState rfl rfl rfl).1

/-- C6: on a tick with the capture open, a successful read, a template
loaded, both descriptor arrays present and connect-markers enabled, the
displayed composite is `drawMatches` applied to at most 20 matches, which
are sorted ascending by distance and are collectively no farther than every
match not drawn (i.e. they are 20 smallest-distance elements of the
cross-checked match list, of which the drawn-plus-rest split is a
permutation). -/
theorem update_frame_connect_draws_top20_sorted (s : AppState)
    (env : TickEnv) (c : Capture) (tmpl : GrayImg) (f : Frame) (d1 d2 : DescArr)
    (hc : s.cap = some c) (hop : c.opened = true) (hr : env.readResult = some f)
    (ht : s.template_image = some tmpl) (hcm : s.connect_markers = true)
    (h1 : env.des1 = some d1) (h2 : env.des2 = some d2) :
    ∃ drawn rest : List DMatch,
      (update_frame s env).1.displayed =
        Display.pix (CImg.bgr2rgb (CImg.drawMatches
          (cv2_resize tmpl tmpl.width tmpl.height) env.kp1 (CImg.frame f)
          env.kp2 drawn)) ∧
      drawn.length ≤ 20 ∧
      List.Sorted distLE drawn ∧
      (∀ a ∈ drawn, ∀ b ∈ rest, a.distance ≤ b.distance) ∧
      (drawn ++ rest).Perm env.bfMatches := by
  refine ⟨(List.insertionSort distLE env.bfMatches).take 20,
          (List.insertionSort distLE env.bfMatches).drop 20, ?_, ?_, ?_, ?_, ?_⟩
  · simp [update_frame, hc, hop, hr, ht, hcm, h1, h2]
  · simp [List.length_take]
  · exact List.Pairwise.sublist (List.take_sublist 20 _)
      (List.sorted_insertionSort distLE env.bfMatches)
  · intro a ha b hb
    have hs := List.sorted_insertionSort distLE env.bfMatches
    rw [← List.take_append_drop 20 (List.insertionSort distLE env.bfMatches)] at hs
    exact (List.pairwise_append.mp hs).2.2 a ha b hb
  · rw [List.take_append_drop]
    exact List.perm_insertionSort distLE env.bfMatches

/-- C6 (witness). -/
theorem update_frame_connect_draws_top20_sorted_witness :
    ∃ drawn rest : List DMatch,
      (update_frame
        { initState with
          template_image := some ⟨100, 100, 1⟩, connect_markers := true,
          camera_on := true, cap := some ⟨true⟩, timer_on := true }
        { readResult := some 0, kp1 := [4, 6], des1 := some [8, 9], kp2 := [7],
          des2 := some [5],
          bfMatches := [⟨0, 0, 9⟩, ⟨1, 0, 2⟩] }).1.displayed =
        Display.pix (CImg.bgr2rgb (CImg.drawMatches
          (cv2_resize ⟨100, 100, 1⟩ (⟨100, 100, 1⟩ : GrayImg).width
            (⟨100, 100, 1⟩ : GrayImg).height)
          [4, 6] (CImg.frame 0) [7] drawn)) ∧
      drawn.length ≤ 20 ∧
      List.Sorted distLE drawn ∧
      (∀ a ∈ drawn, ∀ b ∈ rest, a.distance ≤ b.distance) ∧
      (drawn ++ rest).Perm [⟨0, 0, 9⟩, ⟨1, 0, 2⟩] :=
  update_frame_connect_draws_top20_sorted _ _ ⟨true⟩ ⟨100, 100, 1⟩ 0 [8, 9] [5]
    rfl rfl rfl rfl rfl rfl rfl

/-- C7: on a tick where the capture handle is present and open but the
frame read fails, the tick only logs to the console and is skipped: the
whole state — template, flags, handle, timer, display — is unchanged, so
the periodic loop simply retries on the next tick. -/
theorem update_frame_read_failure_skips_tick (s : AppState) (env : TickEnv)
    (c : Capture) (hc : s.cap = some c) (hop : c.opened = true)
    (hr : env.readResult = none) :
    update_frame s env = (s, ["Failed to read frame from camera."]) := by
  simp [update_frame, hc, hop, hr]

/-- C7 (witness). -/
theorem update_frame_read_failure_skips_tick_witness :
    update_frame { initState with
        cap := some ⟨true⟩, camera_on := true, timer_on := true }
      { readResult := none, kp1 := [], des1 := none, kp2 := [],
        des2 := none, bfMatches := [] } =
    ({ initState with
        cap := some ⟨true⟩, camera_on := true, timer_on := true }, ["Failed to read frame from camera."]) :=
  update_frame_read_failure_skips_tick _ _ ⟨true⟩ rfl rfl rfl

/-- C8: on a tick with the capture open, a successful read and no template
loaded, the display is set to the captured frame converted BGR→RGB with no
overlay, whatever the two mode flags are, and nothing else changes. -/
theorem update_frame_no_template_raw_display (s : AppState) (env : TickEnv)
    (c : Capture) (f : Frame) (hc : s.cap = some c) (hop : c.opened = true)
    (ht : s.template_image = none) (hr : env.readResult = some f) :
    update_frame s env =
      ({ s with displayed := Display.pix (CImg.bgr2rgb (CImg.frame f)) }, []) := by
  simp [update_frame, hc, hop, ht, hr]

/-- C8 (witness, with both mode flags enabled). -/
theorem update_frame_no_template_raw_display_witness :
    update_frame { initState with
        cap := some ⟨true⟩, camera_on := true, timer_on := true,
        display_markers := true, connect_markers := true }
      { readResult := some 2, kp1 := [], des1 := none, kp2 := [3],
        des2 := some [4], bfMatches := [] } =
    ({ initState with
        cap := some ⟨true⟩, camera_on := true, timer_on := true,
        display_markers := true, connect_markers := true,
        displayed := Display.pix (CImg.bgr2rgb (CImg.frame 2)) }, []) :=
  update_frame_no_template_raw_display _ _ ⟨true⟩ 2 rfl rfl rfl rfl

/-- C9: a cancelled file dialog (empty path) makes `load_template_image` a
complete no-op: the state is unchanged and nothing is printed, whatever the
decoder would have returned. -/
theorem load_template_cancel_noop (s : AppState) (imread : Option GrayImg) :
    load_template_image s ("") imread = (s, []) :=
  rfl

/-- C10: on a tick where the capture handle is absent, or present but not
open, `update_frame` does nothing: no state change, no display update, no
console output. -/
theorem update_frame_no_capture_noop (s : AppState) (env : TickEnv)
    (h : s.cap = none ∨ ∃ c, s.cap = some c ∧ c.opened = false) :
    update_frame s env = (s, []) := by
  rcases h with h | ⟨c, hc, hop⟩
  · simp [update_frame, h]
  · simp [update_frame, hc, hop]

/-- C10 (witness). -/
theorem update_frame_no_capture_noop_witness :
    update_frame initState
      { readResult := some 1, kp1 := [], des1 := none, kp2 := [],
        des2 := none, bfMatches := [] } = (initState, []) :=
  update_frame_no_capture_noop _ _ (Or.inl rfl)

end AILab2
